import Mathlib

/-
  Verification development for the project-management backend
  (FastAPI + Beanie/MongoDB work-item and sprint lifecycle engine).

  The definitions below are a shallow embedding of the persisted state
  (the MongoDB collections) and of the router / service operations:

    app/services/permission.py   -> PermissionService checks
    app/routers/issues.py        -> update_issue, delete_issue, move_issue
    app/routers/sprint.py        -> complete_sprint, the three listing routes
    app/routers/projects.py      -> delete_project
    app/routers/recycle_bin.py   -> restore_item (project branch)
    app/routers/boards.py        -> reorder_columns
    app/models/workitems.py      -> the document fields used by the above

  Identifiers (Mongo ObjectIds / id strings) are modelled as opaque Nat
  tokens compared for equality; timestamps as Nat.  Each structure keeps
  the fields that the modelled operations read or write; fields the
  modelled code never touches are omitted.  The multi-shape Mongo queries
  (ObjectId / DBRef / string forms of the same reference, all unioned)
  collapse to a single canonical id match in this embedding.

  Beanie/pydantic-v1 semantics that the embedding reflects:
  * the pydantic `Sprint` model declares neither `completed_at` nor
    `completed_issue_ids` (app/models/workitems.py lines 133-149), and
    pydantic v1 with the default `Extra.ignore` config raises
    `ValueError: "Sprint" object has no field "completed_at"` on attribute
    assignment to an undeclared field, and silently drops such fields when
    parsing a stored document.  The code itself documents this failure
    mode: sprint.py line 612 catches exactly `(ValueError, AttributeError)`
    around these assignments and falls back to a raw partial update, and
    every read of the two fields from a parsed model goes through
    `getattr(sprint, "completed_at", None)`.  Raw motor `update_one`
    calls write the fields to the stored document regardless.
-/

abbrev Oid := Nat

/-- Users collection: only `id` and `role` are consulted by the
permission service. -/
structure UserDoc where
  id : Oid
  role : String
  deriving Repr, DecidableEq

/-- Projects collection.  The pydantic `Project` model declares no
`owner` and no `public` field, so `getattr(proj, "owner", None)` is
always `None` and `getattr(proj, "public", False)` is always `False` in
PermissionService; neither is modelled.  `members` is a dict keyed by
user id; iterating it yields the keys, so only the key list matters. -/
structure ProjectDoc where
  id : Oid
  members : List Oid
  isDeleted : Bool
  deletedAt : Option Nat
  deriving Repr, DecidableEq

/-- Epics collection (fields used by cascade delete / restore). -/
structure EpicDoc where
  id : Oid
  projectId : Oid
  isDeleted : Bool
  deletedAt : Option Nat
  deriving Repr, DecidableEq

/-- Sprints collection, as stored in MongoDB.  `completedAt` and
`completedIssueIds` exist only in the stored document (raw writes), not
on the pydantic model; see the header comment. -/
structure SprintDoc where
  id : Oid
  projectId : Oid
  status : String
  active : Bool
  issueIds : List Oid
  completedAt : Option Nat
  completedIssueIds : List Oid
  isDeleted : Bool
  deletedAt : Option Nat
  deriving Repr, DecidableEq

/-- Issues collection (fields read or written by the modelled routes). -/
structure IssueDoc where
  id : Oid
  projectId : Oid
  name : String
  status : String
  location : String
  sprint : Option Oid
  parent : Option Oid
  assignee : Option Oid
  createdBy : Oid
  isDeleted : Bool
  deletedAt : Option Nat
  deriving Repr, DecidableEq

/-- Comments collection.  The pydantic `Comment` model
(app/models/workitems.py lines 274-285) declares no `is_deleted` /
`deleted_at` fields at all. -/
structure CommentDoc where
  id : Oid
  projectId : Oid
  issue : Option Oid
  author : Oid
  comment : String
  deriving Repr, DecidableEq

/-- Backlogs collection: one document per project, `items` is the id
set maintained with `$addToSet`. -/
structure BacklogDoc where
  projectId : Oid
  items : List Oid
  deriving Repr, DecidableEq

/-- One board column (embedded document). -/
structure BoardColumn where
  name : String
  status : String
  position : Int
  color : Option String
  deriving Repr, DecidableEq

/-- Boards collection. -/
structure Board where
  name : String
  projectId : Oid
  columns : List BoardColumn
  deriving Repr, DecidableEq

/-- The persisted state: the collections the modelled operations touch.
(Features, TimeEntries, LinkedWorkItems and Boards are cascaded the same
way as the modelled collections in delete_project; they are omitted from
the state since no claim inspects them.) -/
structure AppState where
  users : List UserDoc
  projects : List ProjectDoc
  epics : List EpicDoc
  sprints : List SprintDoc
  issues : List IssueDoc
  comments : List CommentDoc
  backlogs : List BacklogDoc
  deriving Repr, DecidableEq

/-- Model of `User.get(user_id)`. -/
def getUser (st : AppState) (uid : Oid) : Option UserDoc :=
  st.users.find? (fun u => u.id == uid)

/-- Model of `Project.get(project_id)` (returns the document even if soft-deleted). -/
def findProject (st : AppState) (pid : Oid) : Option ProjectDoc :=
  st.projects.find? (fun p => p.id == pid)

/-- Model of `Sprint.get(sprint_id)`. -/
def findSprint (st : AppState) (sid : Oid) : Option SprintDoc :=
  st.sprints.find? (fun s => s.id == sid)

/-- Model of `Issue.get(issue_id)`. -/
def findIssue (st : AppState) (iid : Oid) : Option IssueDoc :=
  st.issues.find? (fun i => i.id == iid)

/-- Model of `update_one` on the sprints collection keyed by `_id` (ids unique). -/
def updateSprintDoc (st : AppState) (sid : Oid) (f : SprintDoc → SprintDoc) : AppState :=
  { st with sprints := st.sprints.map (fun sp => if sp.id == sid then f sp else sp) }

/-- Model of `update_one` on the issues collection keyed by `_id`. -/
def updateIssueDoc (st : AppState) (iid : Oid) (f : IssueDoc → IssueDoc) : AppState :=
  { st with issues := st.issues.map (fun i => if i.id == iid then f i else i) }

/-- Update of the project document keyed by `_id`. -/
def updateProjectDoc (st : AppState) (pid : Oid) (f : ProjectDoc → ProjectDoc) : AppState :=
  { st with projects := st.projects.map (fun p => if p.id == pid then f p else p) }

/-- Mongo `$addToSet` on a list. -/
def addToSet (l : List Oid) (x : Oid) : List Oid :=
  if l.contains x then l else l ++ [x]

/-- Model of `backlog_col.update_one({"project_id": pid}, {"$addToSet": {"items": iid}}, upsert=True)`. -/
def backlogAddToSet (st : AppState) (pid : Oid) (iid : Oid) : AppState :=
  if st.backlogs.any (fun b => b.projectId == pid) then
    { st with backlogs := st.backlogs.map (fun b =>
        if b.projectId == pid then { b with items := addToSet b.items iid } else b) }
  else
    { st with backlogs := st.backlogs ++ [{ projectId := pid, items := [iid] }] }

/-
  PermissionService (app/services/permission.py).
-/

/-- Model of `PermissionService._is_admin`. -/
def isAdmin (st : AppState) (uid : Oid) : Bool :=
  match getUser st uid with
  | some u => u.role == "admin"
  | none => false

/-- Model of `PermissionService._is_employee_or_admin`. -/
def isEmployeeOrAdmin (st : AppState) (uid : Oid) : Bool :=
  match getUser st uid with
  | some u => u.role == "admin" || u.role == "employee"
  | none => false

/-- Model of `PermissionService._is_project_owner_or_member`.  `getattr(proj,
"owner", None)` is always `None` (no such field on the model), so only
the membership scan remains; iterating the `members` dict yields its
keys (user ids). -/
def isProjectOwnerOrMember (p : ProjectDoc) (uid : Oid) : Bool :=
  p.members.contains uid

/-- Model of `PermissionService.can_view_project`.  The final
`getattr(proj, "public", False)` branch is always `False` (the model
declares no `public` field) and therefore drops out. -/
def canViewProject (st : AppState) (pid uid : Oid) : Bool :=
  if isEmployeeOrAdmin st uid then true
  else if isAdmin st uid then true
  else
    match findProject st pid with
    | none => false
    | some p => if isProjectOwnerOrMember p uid then true else false

/-- Model of `PermissionService.can_edit_project`. -/
def canEditProject (st : AppState) (pid uid : Oid) : Bool :=
  if isEmployeeOrAdmin st uid then true
  else if isAdmin st uid then true
  else
    match findProject st pid with
    | none => false
    | some p => isProjectOwnerOrMember p uid

/-- Model of `PermissionService.can_edit_workitem`. -/
def canEditWorkitem (st : AppState) (iid uid : Oid) : Bool :=
  if isEmployeeOrAdmin st uid then true
  else if isAdmin st uid then true
  else
    match findIssue st iid with
    | none => false
    | some i =>
      if i.createdBy == uid then true
      else if i.assignee == some uid then true
      else canEditProject st i.projectId uid

/-- Model of `PermissionService.can_comment`. -/
def canComment (st : AppState) (iid uid : Oid) : Bool :=
  if isAdmin st uid then true
  else if isEmployeeOrAdmin st uid then true
  else
    match findIssue st iid with
    | none => false
    | some i => canViewProject st i.projectId uid

/-- Model of `PermissionService.can_manage_sprint`. -/
def canManageSprint (st : AppState) (pid uid : Oid) : Bool :=
  if isEmployeeOrAdmin st uid then true
  else if isAdmin st uid then true
  else
    match findProject st pid with
    | none => false
    | some p => isProjectOwnerOrMember p uid

/-
  Issues router (app/routers/issues.py).
-/

/-- Error taxonomy of the HTTP layer (status codes 404 / 403 / 400 /
uncaught exception = 500). -/
inductive ApiError where
  | notFound
  | permissionDenied
  | badRequest
  | serverError
  deriving Repr, DecidableEq

/-- The subset of `IssueUpdate` used here: plain field patches.  The
relation-id fields (`epic_id`, `sprint_id`, ...) are resolved the same
way and are not needed by any claim. -/
structure IssuePatch where
  name : Option String := none
  status : Option String := none
  deriving Repr, DecidableEq

/-- Model of `await issue.set(payload)` for a plain field patch. -/
def applyPatch (p : IssuePatch) (i : IssueDoc) : IssueDoc :=
  let i1 := match p.name with
    | some n => { i with name := n }
    | none => i
  match p.status with
  | some s => { i1 with status := s }
  | none => i1

/-- Model of `IssuesRouter.update_issue` (issues.py lines 207-238).  The source
carries the comment `# permission check removed: all authenticated users
can update issues`: after the 404 check the patch is applied
unconditionally; `caller` is never consulted. -/
def updateIssue (st : AppState) (caller : Oid) (iid : Oid) (p : IssuePatch) :
    Except ApiError AppState :=
  match findIssue st iid with
  | none => Except.error ApiError.notFound
  | some _ =>
    let _ := caller
    Except.ok (updateIssueDoc st iid (applyPatch p))

/-- Model of `IssuesRouter.delete_issue` (issues.py lines 240-256).  Soft-deletes
the issue, then `Issue.find(Issue.parent.id == issue.id).update({"$set":
{"is_deleted": True, "deleted_at": ...}})` soft-deletes its subtasks.
No other collection is touched (in particular comments are not).  The
source comment `# permission check removed` applies here as well. -/
def deleteIssue (st : AppState) (caller : Oid) (iid : Oid) (now : Nat) :
    Except ApiError AppState :=
  match findIssue st iid with
  | none => Except.error ApiError.notFound
  | some _ =>
    let _ := caller
    Except.ok { st with issues := st.issues.map (fun j =>
      if j.id == iid || j.parent == some iid then
        { j with isDeleted := true, deletedAt := some now }
      else j) }

/-- Model of `$pull` of an issue id from a sprint's `issue_ids`. -/
def pullFromSprint (st : AppState) (sid : Oid) (iid : Oid) : AppState :=
  updateSprintDoc st sid (fun sp =>
    { sp with issueIds := sp.issueIds.filter (fun x => !(x == iid)) })

/-- Model of `$addToSet` of an issue id into a sprint's `issue_ids` (a plain
`update_one`: it matches nothing and raises nothing when the sprint id
does not exist). -/
def addIssueToSprint (st : AppState) (sid : Oid) (iid : Oid) : AppState :=
  updateSprintDoc st sid (fun sp => { sp with issueIds := addToSet sp.issueIds iid })

/-- The `to` query parameter of `move_issue` (the parameter is named
`dest` below because `to` is reserved in Lean). -/
inductive MoveTo where
  | backlog
  | sprint
  deriving Repr, DecidableEq

/-- Model of `IssuesRouter.move_issue` (issues.py lines 258-316).  The pull from
the old sprint's `issue_ids` is committed before the target is
validated, so the 400/404 error paths leave that mutation in place; the
result is therefore the final state paired with an optional error.  The
source comment `# permission check removed` applies: `caller` is never
consulted. -/
def moveIssue (st : AppState) (caller : Oid) (iid : Oid) (dest : MoveTo)
    (sprintId : Option Oid) : AppState × Option ApiError :=
  match findIssue st iid with
  | none => (st, some ApiError.notFound)
  | some i =>
    let _ := caller
    let st1 := match i.sprint with
      | some oldSid => pullFromSprint st oldSid iid
      | none => st
    match dest with
    | MoveTo.sprint =>
      match sprintId with
      | none => (st1, some ApiError.badRequest)
      | some tid =>
        match findSprint st1 tid with
        | none => (st1, some ApiError.notFound)
        | some _ =>
          let st2 := addIssueToSprint st1 tid iid
          (updateIssueDoc st2 iid (fun j => { j with sprint := some tid, location := "sprint" }),
            none)
    | MoveTo.backlog =>
      (updateIssueDoc st1 iid (fun j => { j with sprint := none, location := "backlog" }),
        none)

/-
  Sprint completion (app/routers/sprint.py, complete_sprint,
  lines 398-653).
-/

/-- The `auto_move_incomplete_to` query parameter once the empty-string
normalisation is done: absent, the literal `"backlog"`, or a target
sprint id. -/
inductive AutoMoveTarget where
  | backlog
  | toSprint (sid : Oid)
  deriving Repr, DecidableEq

/-- Result of `complete_sprint` as seen by the caller. -/
inductive CompleteResult where
  | sprintNotFound
  | split (completed pending : List Oid)
  | serverError
  | movedOk (snapshot moved : List Oid)
  deriving Repr, DecidableEq

/-- Issue collection of `complete_sprint` (lines 417-455): prefer the
sprint's own `issue_ids`; if that list is empty, fall back to querying
issues whose `sprint` reference resolves to this sprint. -/
def collectSprintIssues (st : AppState) (s : SprintDoc) : List IssueDoc :=
  if s.issueIds.isEmpty then st.issues.filter (fun i => i.sprint == some s.id)
  else st.issues.filter (fun i => s.issueIds.contains i.id)

/-- The raw `sprints_col.update_one` writing the completion fields
(lines 478-489 resp. 598-603). -/
def markSprintCompleted (st : AppState) (sid : Oid) (snapshot : List Oid) (now : Nat) :
    AppState :=
  updateSprintDoc st sid (fun sp =>
    { sp with completedAt := some now, active := false,
              completedIssueIds := snapshot, status := "completed" })

/-- One iteration of the auto-move loop (lines 556-596): pull the
incomplete issue from this sprint's `issue_ids`, then either add it to
the target sprint's `issue_ids` and point the issue at that sprint with
`location="sprint"`, or (target `"backlog"`) clear its sprint, set
`location="backlog"` and `$addToSet` it into the project backlog. -/
def moveIncompleteOne (projId : Oid) (sid : Oid) (t : AutoMoveTarget)
    (st : AppState) (d : IssueDoc) : AppState :=
  let st1 := pullFromSprint st sid d.id
  match t with
  | AutoMoveTarget.toSprint tid =>
    let st2 := addIssueToSprint st1 tid d.id
    updateIssueDoc st2 d.id (fun i => { i with sprint := some tid, location := "sprint" })
  | AutoMoveTarget.backlog =>
    let st2 := updateIssueDoc st1 d.id (fun i =>
      { i with sprint := none, location := "backlog" })
    backlogAddToSet st2 projId d.id

/-- One iteration of the final relocation pass (lines 502-532 resp.
626-643): issues with status other than `"done"` get `sprint := None`
and `location := "backlog"`; `"done"` issues get their sprint reference
unset and `location := "archived"`. -/
def finalizeIssue (st : AppState) (d : IssueDoc) : AppState :=
  if d.status == "done" then
    updateIssueDoc st d.id (fun i => { i with sprint := none, location := "archived" })
  else
    updateIssueDoc st d.id (fun i => { i with sprint := none, location := "backlog" })

/-- Model of `SprintsRouter.complete_sprint` (sprint.py lines 398-653).

With no target and a non-empty pending set the call returns the
completed/pending split without touching any document.

With no target and every issue `"done"`, the raw `update_one` persists
the completion fields, after which the unguarded model assignment
`sprint.completed_at = completed_ts` (line 491) raises pydantic's
`ValueError` (`Sprint` declares no such field, see the header comment);
the request aborts with an uncaught exception, so the `"PATCHED LOGIC"`
archive pass (lines 502-532) is never reached and no issue is moved.

With a target, the same assignment inside `try` (line 607) raises and
is caught at line 612, and the `sprint.set({...})` fallback re-applies
the four completion fields as a partial update; the `$pull`s from the
loop persist (no full-document replace happens), and the final
relocation pass (lines 626-643) then runs over every collected issue,
overwriting the per-issue moves done in the loop. -/
def completeSprint (st : AppState) (sid : Oid) (target : Option AutoMoveTarget)
    (now : Nat) : AppState × CompleteResult :=
  match findSprint st sid with
  | none => (st, CompleteResult.sprintNotFound)
  | some s =>
    let docs := collectSprintIssues st s
    let snapshot := docs.map (fun d => d.id)
    match target with
    | none =>
      let completed := (docs.filter (fun d => d.status == "done")).map (fun d => d.id)
      let pending := (docs.filter (fun d => !(d.status == "done"))).map (fun d => d.id)
      if pending.isEmpty then
        (markSprintCompleted st sid snapshot now, CompleteResult.serverError)
      else
        (st, CompleteResult.split completed pending)
    | some t =>
      let incomplete := docs.filter (fun d => !(d.status == "done"))
      let st1 := incomplete.foldl (moveIncompleteOne s.projectId sid t) st
      let st2 := markSprintCompleted st1 sid snapshot now
      let st3 := docs.foldl finalizeIssue st2
      (st3, CompleteResult.movedOk snapshot (incomplete.map (fun d => d.id)))

/-
  Sprint listing routes (app/routers/sprint.py).
-/

/-- Model of `SprintsRouter.list_sprints` (lines 104-116): a Beanie query with
`Sprint.is_deleted != True` and the project filter, then a model-level
skip of `status == "completed"`.  The second skip condition
`getattr(s, "completed_at", None) is not None` reads a field the
pydantic model drops at parse time, so it never fires and is omitted. -/
def listActiveSprints (st : AppState) (pid : Oid) : List SprintDoc :=
  (st.sprints.filter (fun s => s.projectId == pid && !s.isDeleted)).filter
    (fun s => !(s.status == "completed"))

/-- Model of `SprintsRouter.list_completed_sprints` (lines 655-666): a raw motor
query `{"completed_at": {"$ne": None}}` with an optional project match;
no `is_deleted` condition appears anywhere in the route. -/
def listCompletedSprints (st : AppState) (projectFilter : Option Oid) : List SprintDoc :=
  (st.sprints.filter (fun s => !(s.completedAt == none))).filter (fun s =>
    match projectFilter with
    | some p => s.projectId == p
    | none => true)

/-- Model of `SprintsRouter.list_running_sprints` (lines 799-810): a raw motor
query `{"active": True, "$or": [completed_at absent, completed_at None]}`
with an optional project clause; no `is_deleted` condition appears
anywhere in the route.  (The sort by `start_date` does not affect
membership and is omitted.) -/
def listRunningSprints (st : AppState) (projectFilter : Option Oid) : List SprintDoc :=
  (st.sprints.filter (fun s => s.active && s.completedAt == none)).filter (fun s =>
    match projectFilter with
    | some p => s.projectId == p
    | none => true)

/-
  Project delete (app/routers/projects.py lines 458-533) and
  recycle-bin restore (app/routers/recycle_bin.py lines 186-256).
-/

/-- Model of `ProjectsRouter.delete_project`.  The permission probe loop finds
`can_view_project` as the first existing PermissionService attribute.
The cascade then runs `col.delete_many(...)` over every child
collection for all reference shapes of the project id, and finally
`await project.delete()` — physical removal throughout; `is_deleted` is
never written.  (The trailing `_delete_project_children` call is an
undefined name whose `NameError` is caught and logged.) -/
def deleteProject (st : AppState) (caller : Oid) (pid : Oid) : Except ApiError AppState :=
  match findProject st pid with
  | none => Except.error ApiError.notFound
  | some _ =>
    if !(canViewProject st pid caller) then Except.error ApiError.permissionDenied
    else
      Except.ok { st with
        projects := st.projects.filter (fun p => !(p.id == pid)),
        epics := st.epics.filter (fun e => !(e.projectId == pid)),
        issues := st.issues.filter (fun i => !(i.projectId == pid)),
        sprints := st.sprints.filter (fun s => !(s.projectId == pid)),
        comments := st.comments.filter (fun c => !(c.projectId == pid)),
        backlogs := st.backlogs.filter (fun b => !(b.projectId == pid)) }

/-- Model of `restore_item` for `item_type == "project"` (recycle_bin.py lines
186-256): 404 when the project id does not resolve, `can_edit_project`
gate, clear the flags on the project, then `update_many` clearing
`is_deleted`/`deleted_at` on Epics, Features, Issues, Sprints and
Comments that reference the project.  (Features are not modelled; the
comment-collection update writes an `is_deleted: false` Mongo field that
the `Comment` model does not declare, outside the modelled record.) -/
def restoreItemProject (st : AppState) (caller : Oid) (pid : Oid) : Except ApiError AppState :=
  match findProject st pid with
  | none => Except.error ApiError.notFound
  | some _ =>
    if !(canEditProject st pid caller) then Except.error ApiError.permissionDenied
    else
      let st1 := updateProjectDoc st pid (fun p =>
        { p with isDeleted := false, deletedAt := none })
      Except.ok { st1 with
        epics := st1.epics.map (fun e =>
          if e.projectId == pid then { e with isDeleted := false, deletedAt := none } else e),
        issues := st1.issues.map (fun i =>
          if i.projectId == pid then { i with isDeleted := false, deletedAt := none } else i),
        sprints := st1.sprints.map (fun s =>
          if s.projectId == pid then { s with isDeleted := false, deletedAt := none } else s) }

/-
  Board column reorder (app/routers/boards.py lines 292-332).
-/

/-- Model of `column_map = {col.position: col for col in board.columns}`: on a
duplicate position the later column wins, hence the reverse lookup. -/
def columnAt (cols : List BoardColumn) (p : Int) : Option BoardColumn :=
  cols.reverse.find? (fun c => c.position == p)

/-- Index of the last occurrence of `p` in `newOrder` — the position a
column ends up with: the loop executes `column.position = new_position`
once per occurrence of the column's old position, and all occurrences
alias the same object, so the last write wins. -/
def lastIndexOf (newOrder : List Int) (p : Int) : Nat :=
  match (newOrder.reverse).findIdx? (fun q => q == p) with
  | some k => newOrder.length - 1 - k
  | none => 0

/-- Model of `BoardsRouter.reorder_columns` (boards.py lines 292-332), the column
logic after the permission / board-lookup preamble.  Validation: the
input length must equal the column count, and every entry must match
some existing column's position; on any failure the board is not saved
(the in-memory position writes done before the failing entry are
discarded).  On success `new_columns` holds, for each entry, the column
whose old position matches — the same object for duplicate entries, with
its position being the index of the entry's last occurrence. -/
def reorderColumns (b : Board) (newOrder : List Int) : Except ApiError Board :=
  if !(newOrder.length == b.columns.length) then Except.error ApiError.badRequest
  else if !(newOrder.all (fun p => (columnAt b.columns p).isSome)) then
    Except.error ApiError.badRequest
  else
    Except.ok { b with columns := newOrder.map (fun p =>
      match columnAt b.columns p with
      | some c => { c with position := (lastIndexOf newOrder p : Int) }
      | none => { name := "", status := "", position := 0, color := none }) }

/-
  Concrete states used by the example theorems below.
-/

/-- Empty state. -/
def emptyState : AppState :=
  { users := [], projects := [], epics := [], sprints := [], issues := [],
    comments := [], backlogs := [] }

/-- A running sprint with one `"done"` and one `"todo"` issue. -/
def sprintPend : SprintDoc :=
  { id := 10, projectId := 1, status := "running", active := true,
    issueIds := [1, 2], completedAt := none, completedIssueIds := [],
    isDeleted := false, deletedAt := none }

/-- State for the pending-split scenario: sprint 10 holds issue 1
(`"done"`) and issue 2 (`"todo"`). -/
def stPend : AppState :=
  { emptyState with
    projects := [{ id := 1, members := [], isDeleted := false, deletedAt := none }],
    sprints := [sprintPend],
    issues :=
      [{ id := 1, projectId := 1, name := "A", status := "done", location := "board",
         sprint := some 10, parent := none, assignee := none, createdBy := 7,
         isDeleted := false, deletedAt := none },
       { id := 2, projectId := 1, name := "B", status := "todo", location := "board",
         sprint := some 10, parent := none, assignee := none, createdBy := 7,
         isDeleted := false, deletedAt := none }] }

/-- Auto-move scenario: like `stPend` but with a second (target) sprint 20. -/
def stAutoMove : AppState :=
  { stPend with
    sprints := stPend.sprints ++
      [{ id := 20, projectId := 1, status := "planned", active := false,
         issueIds := [], completedAt := none, completedIssueIds := [],
         isDeleted := false, deletedAt := none }] }

/-- All-done scenario: sprint 10 holds only issue 1 with status `"done"`. -/
def stAllDone : AppState :=
  { emptyState with
    projects := [{ id := 1, members := [], isDeleted := false, deletedAt := none }],
    sprints := [{ id := 10, projectId := 1, status := "running", active := true,
                  issueIds := [1], completedAt := none, completedIssueIds := [],
                  isDeleted := false, deletedAt := none }],
    issues :=
      [{ id := 1, projectId := 1, name := "A", status := "done", location := "board",
         sprint := some 10, parent := none, assignee := none, createdBy := 7,
         isDeleted := false, deletedAt := none }] }

/-- Cascade-delete scenario: admin user 9, project 1 with two epics and
two issues. -/
def stCascade : AppState :=
  { emptyState with
    users := [{ id := 9, role := "admin" }],
    projects := [{ id := 1, members := [], isDeleted := false, deletedAt := none }],
    epics := [{ id := 11, projectId := 1, isDeleted := false, deletedAt := none },
              { id := 12, projectId := 1, isDeleted := false, deletedAt := none }],
    issues :=
      [{ id := 21, projectId := 1, name := "I1", status := "todo", location := "backlog",
         sprint := none, parent := none, assignee := none, createdBy := 9,
         isDeleted := false, deletedAt := none },
       { id := 22, projectId := 1, name := "I2", status := "todo", location := "backlog",
         sprint := none, parent := none, assignee := none, createdBy := 9,
         isDeleted := false, deletedAt := none }] }

/-- Expected state after `deleteProject stCascade 9 1`: every record of
project 1 physically removed, nothing flagged. -/
def stCascadeAfter : AppState :=
  { emptyState with users := [{ id := 9, role := "admin" }] }

/-- Permission-bypass scenario for the issue routes: caller 100 has role
`"user"`, is not a member of project 1, and is neither creator nor
assignee of issue 5 (created by admin 7). -/
def stNoPerm : AppState :=
  { emptyState with
    users := [{ id := 100, role := "user" }, { id := 7, role := "admin" }],
    projects := [{ id := 1, members := [], isDeleted := false, deletedAt := none }],
    issues :=
      [{ id := 5, projectId := 1, name := "T", status := "todo", location := "backlog",
         sprint := none, parent := none, assignee := none, createdBy := 7,
         isDeleted := false, deletedAt := none }] }

/-- A soft-deleted, completed sprint. -/
def sprintDelCompleted : SprintDoc :=
  { id := 1, projectId := 1, status := "completed", active := false,
    issueIds := [], completedAt := some 5, completedIssueIds := [4],
    isDeleted := true, deletedAt := some 6 }

/-- A soft-deleted sprint that is still flagged active. -/
def sprintDelActive : SprintDoc :=
  { id := 2, projectId := 1, status := "running", active := true,
    issueIds := [], completedAt := none, completedIssueIds := [],
    isDeleted := true, deletedAt := some 6 }

/-- A live planned sprint. -/
def sprintLive : SprintDoc :=
  { id := 3, projectId := 1, status := "planned", active := false,
    issueIds := [], completedAt := none, completedIssueIds := [],
    isDeleted := false, deletedAt := none }

/-- Listing scenario: sprint 1 is soft-deleted and completed, sprint 2
is soft-deleted and still active, sprint 3 is a live planned sprint. -/
def stListings : AppState :=
  { emptyState with sprints := [sprintDelCompleted, sprintDelActive, sprintLive] }

/-- Issue-cascade scenario: issue 1 has subtask 2 and comment 50; issue
3 is a sibling in the same project. -/
def stIssueTree : AppState :=
  { emptyState with
    users := [{ id := 9, role := "admin" }],
    projects := [{ id := 1, members := [], isDeleted := false, deletedAt := none }],
    issues :=
      [{ id := 1, projectId := 1, name := "Main", status := "todo", location := "backlog",
         sprint := none, parent := none, assignee := none, createdBy := 9,
         isDeleted := false, deletedAt := none },
       { id := 2, projectId := 1, name := "Sub", status := "todo", location := "backlog",
         sprint := none, parent := some 1, assignee := none, createdBy := 9,
         isDeleted := false, deletedAt := none },
       { id := 3, projectId := 1, name := "Sib", status := "todo", location := "backlog",
         sprint := none, parent := none, assignee := none, createdBy := 9,
         isDeleted := false, deletedAt := none }],
    comments := [{ id := 50, projectId := 1, issue := some 1, author := 9,
                   comment := "note" }] }

/-- Board with three columns at positions 0, 1, 2 (the setup of the
repository's `verify_reorder.py`). -/
def boardABC : Board :=
  { name := "Reorder Test", projectId := 1, columns :=
      [{ name := "A", status := "a", position := 0, color := none },
       { name := "B", status := "b", position := 1, color := none },
       { name := "C", status := "c", position := 2, color := none }] }

/-- Permission-witness state: user 7 has role `"employee"`. -/
def stEmployee : AppState :=
  { emptyState with users := [{ id := 7, role := "employee" }] }

/-
  Helper lemmas.
-/

/-- Mapping with a function that preserves the search predicate commutes
with `List.find?`. -/
theorem find?_map_pred {α : Type} (g : α → α) (p : α → Bool)
    (hp : ∀ a, p (g a) = p a) :
    ∀ (l : List α), (l.map g).find? p = (l.find? p).map g := by
  intro l
  induction l with
  | nil => rfl
  | cons a t ih =>
    cases h : p a with
    | true =>
      rw [List.map_cons, List.find?_cons_of_pos _ (by rw [hp]; exact h),
        List.find?_cons_of_pos _ h]
      rfl
    | false =>
      rw [List.map_cons, List.find?_cons_of_neg _ (by rw [hp]; simp [h]),
        List.find?_cons_of_neg _ (by simp [h]), ih]

/-- Locating a sprint after an id-preserving sprint update. -/
theorem findSprint_updateSprintDoc (st : AppState) (j sid : Oid)
    (f : SprintDoc → SprintDoc) (hf : ∀ sp, (f sp).id = sp.id) :
    findSprint (updateSprintDoc st j f) sid =
      (findSprint st sid).map (fun sp => if sp.id == j then f sp else sp) := by
  unfold findSprint updateSprintDoc
  exact find?_map_pred _ _ (fun sp => by
    cases h : (sp.id == j) with
    | true => simp [h, hf]
    | false => simp [h]) st.sprints

/-- Issue updates do not touch the sprints collection. -/
theorem findSprint_updateIssueDoc (st : AppState) (iid sid : Oid)
    (f : IssueDoc → IssueDoc) :
    findSprint (updateIssueDoc st iid f) sid = findSprint st sid := rfl

/-- Backlog updates do not touch the sprints collection. -/
theorem findSprint_backlogAddToSet (st : AppState) (pid iid sid : Oid) :
    findSprint (backlogAddToSet st pid iid) sid = findSprint st sid := by
  unfold backlogAddToSet
  split <;> rfl

/-- Whether a sprint resolves is unchanged by an id-preserving sprint
update. -/
theorem findSprint_isSome_updateSprintDoc (st : AppState) (j sid : Oid)
    (f : SprintDoc → SprintDoc) (hf : ∀ sp, (f sp).id = sp.id) :
    (findSprint (updateSprintDoc st j f) sid).isSome = (findSprint st sid).isSome := by
  rw [findSprint_updateSprintDoc st j sid f hf]
  cases findSprint st sid <;> rfl

/-- One auto-move iteration keeps the set of sprint ids, hence whether a
sprint resolves. -/
theorem findSprint_isSome_moveIncompleteOne (projId sid0 : Oid) (t : AutoMoveTarget)
    (st : AppState) (d : IssueDoc) (sid : Oid) :
    (findSprint (moveIncompleteOne projId sid0 t st d) sid).isSome =
      (findSprint st sid).isSome := by
  unfold moveIncompleteOne
  cases t with
  | toSprint tid =>
    rw [findSprint_updateIssueDoc]
    unfold addIssueToSprint pullFromSprint
    exact (findSprint_isSome_updateSprintDoc
        (updateSprintDoc st sid0 (fun sp =>
          { sp with issueIds := sp.issueIds.filter (fun x => !(x == d.id)) }))
        tid sid (fun sp => { sp with issueIds := addToSet sp.issueIds d.id })
        (fun sp => rfl)).trans
      (findSprint_isSome_updateSprintDoc st sid0 sid
        (fun sp => { sp with issueIds := sp.issueIds.filter (fun x => !(x == d.id)) })
        (fun sp => rfl))
  | backlog =>
    rw [findSprint_backlogAddToSet, findSprint_updateIssueDoc]
    unfold pullFromSprint
    exact findSprint_isSome_updateSprintDoc _ _ _ _ (fun sp => rfl)

/-- The whole auto-move loop keeps whether a sprint resolves. -/
theorem findSprint_isSome_moveFold (projId sid0 : Oid) (t : AutoMoveTarget) (sid : Oid) :
    ∀ (l : List IssueDoc) (st : AppState),
      (findSprint (l.foldl (moveIncompleteOne projId sid0 t) st) sid).isSome =
        (findSprint st sid).isSome := by
  intro l
  induction l with
  | nil => intro st; rfl
  | cons d tl ih =>
    intro st
    rw [List.foldl_cons, ih, findSprint_isSome_moveIncompleteOne]

/-- The final relocation pass does not touch the sprints collection. -/
theorem findSprint_finalizeFold (sid : Oid) :
    ∀ (l : List IssueDoc) (st : AppState),
      findSprint (l.foldl finalizeIssue st) sid = findSprint st sid := by
  intro l
  induction l with
  | nil => intro st; rfl
  | cons d tl ih =>
    intro st
    rw [List.foldl_cons, ih]
    unfold finalizeIssue
    split <;> rfl

/-- A resolved sprint satisfies the lookup predicate. -/
theorem findSprint_id_eq (st : AppState) (sid : Oid) (sp : SprintDoc)
    (h : findSprint st sid = some sp) : (sp.id == sid) = true := by
  unfold findSprint at h
  simpa using List.find?_some h

/-- An employee or admin caller passes `_is_employee_or_admin`. -/
theorem isEmployeeOrAdmin_of_role (st : AppState) (uid : Oid) (u : UserDoc)
    (hu : getUser st uid = some u) (hr : u.role = "employee" ∨ u.role = "admin") :
    isEmployeeOrAdmin st uid = true := by
  unfold isEmployeeOrAdmin
  rw [hu]
  rcases hr with h | h <;> simp [h]

/-
  Claim theorems.
-/

/-- Claim C10: every Permission Gate capability check (can_view_project,
can_edit_project, can_edit_workitem, can_comment, can_manage_sprint)
returns true for any project or issue id — existing or not — whenever
the calling user's role is `"employee"` or `"admin"`, regardless of
membership, ownership, assignee or creator. -/
theorem employee_or_admin_passes_every_gate
    (st : AppState) (uid pid iid : Oid) (u : UserDoc)
    (hu : getUser st uid = some u)
    (hr : u.role = "employee" ∨ u.role = "admin") :
    canViewProject st pid uid = true ∧
    canEditProject st pid uid = true ∧
    canEditWorkitem st iid uid = true ∧
    canComment st iid uid = true ∧
    canManageSprint st pid uid = true := by
  have he := isEmployeeOrAdmin_of_role st uid u hu hr
  refine ⟨?_, ?_, ?_, ?_, ?_⟩ <;>
    simp [canViewProject, canEditProject, canEditWorkitem, canComment,
      canManageSprint, he]

/-- Witness for C10: the employee user 7 of `stEmployee` passes all five
checks on arbitrary ids (project 1, issue 2), neither of which exists. -/
theorem employee_or_admin_passes_every_gate_witness :
    canViewProject stEmployee 1 7 = true ∧
    canEditProject stEmployee 1 7 = true ∧
    canEditWorkitem stEmployee 2 7 = true ∧
    canComment stEmployee 2 7 = true ∧
    canManageSprint stEmployee 1 7 = true :=
  employee_or_admin_passes_every_gate stEmployee 7 1 2
    { id := 7, role := "employee" } (by rfl) (Or.inl rfl)

/-- Claim C1: completing a sprint with no autoMoveTarget while at least
one collected issue has status other than `"done"` leaves the whole
state untouched (no sprint field, no issue, no backlog is mutated) and
returns the completed/pending partition of the collected issue set. -/
theorem complete_sprint_pending_is_pure_split
    (st : AppState) (sid : Oid) (now : Nat) (s : SprintDoc)
    (hs : findSprint st sid = some s)
    (hp : ((collectSprintIssues st s).filter
        (fun d => !(d.status == "done"))).isEmpty = false) :
    completeSprint st sid none now =
      (st, CompleteResult.split
        (((collectSprintIssues st s).filter (fun d => d.status == "done")).map
          (fun d => d.id))
        (((collectSprintIssues st s).filter (fun d => !(d.status == "done"))).map
          (fun d => d.id))) := by
  unfold completeSprint
  rw [hs]
  simp [hp]
  cases hfe : (collectSprintIssues st s).filter (fun d => !(d.status == "done")) with
  | nil => rw [hfe] at hp; simp at hp
  | cons a l =>
    have haf : a ∈ (collectSprintIssues st s).filter (fun d => !(d.status == "done")) := by
      rw [hfe]
      exact List.mem_cons_self a l
    rcases List.mem_filter.mp haf with ⟨hmem, hpred⟩
    exact ⟨a, hmem, by simpa using hpred⟩

/-- Witness for C1: sprint 10 of `stPend` has a `"todo"` issue; the call
returns the split `([1], [2])` and the state unchanged. -/
theorem complete_sprint_pending_is_pure_split_witness :
    completeSprint stPend 10 none 5 = (stPend, CompleteResult.split [1] [2]) :=
  (complete_sprint_pending_is_pure_split stPend 10 5 sprintPend (by rfl)
    (by rfl)).trans (by rfl)

/-- Claim C2 (code bug, evaluation at the failing input): completing
sprint 10 of `stAutoMove` with target sprint 20 does detach the `"todo"`
issue 2 from sprint 10's `issue_ids` and add it to sprint 20's
`issue_ids`, but the final relocation pass then overwrites the issue's
own fields: it ends with `sprint = none` and `location = "backlog"`,
not with `sprint = some 20` and `location = "sprint"` as the claim (and
the loop's own earlier update at sprint.py line 575) requires. -/
theorem complete_auto_move_to_sprint_clobbers_issue :
    ((findSprint (completeSprint stAutoMove 10
        (some (AutoMoveTarget.toSprint 20)) 50).fst 20).map
      (fun sp => sp.issueIds) = some [2]) ∧
    ((findSprint (completeSprint stAutoMove 10
        (some (AutoMoveTarget.toSprint 20)) 50).fst 10).map
      (fun sp => sp.issueIds) = some [1]) ∧
    ((findIssue (completeSprint stAutoMove 10
        (some (AutoMoveTarget.toSprint 20)) 50).fst 2).map
      (fun i => (i.sprint, i.location)) = some (none, "backlog")) :=
  ⟨rfl, rfl, rfl⟩

/-- Claim C3 (code bug, evaluation at the failing input): completing
sprint 10 of `stAllDone` (its only issue has status `"done"`) with no
target persists the sprint completion fields via the raw update, but the
request then aborts (the unguarded `sprint.completed_at` assignment at
sprint.py line 491 raises pydantic's ValueError), so the archive pass
never runs: issue 1 keeps `location = "board"` and `sprint = some 10`
instead of being moved to `"archived"` with its sprint removed. -/
theorem complete_all_done_aborts_before_archiving :
    ((completeSprint stAllDone 10 none 99).snd = CompleteResult.serverError) ∧
    ((findSprint (completeSprint stAllDone 10 none 99).fst 10).map
      (fun sp => (sp.status, sp.active, sp.completedAt, sp.completedIssueIds)) =
        some ("completed", false, some 99, [1])) ∧
    ((findIssue (completeSprint stAllDone 10 none 99).fst 1).map
      (fun i => (i.location, i.sprint)) = some ("board", some 10)) :=
  ⟨rfl, rfl, rfl⟩

/-- Claim C5 (code bug, evaluation at the failing input): deleting
project 1 of `stCascade` (caller: admin 9) physically removes the
project, both epics and both issues — `delete_many` plus
`project.delete()`, no `is_deleted` flag is ever written — and a
subsequent recycle-bin restore of the project fails with not-found. -/
theorem delete_project_is_physical_removal :
    (deleteProject stCascade 9 1 = Except.ok stCascadeAfter) ∧
    (stCascadeAfter.projects = [] ∧ stCascadeAfter.epics = [] ∧
      stCascadeAfter.issues = []) ∧
    (restoreItemProject stCascadeAfter 9 1 = Except.error ApiError.notFound) :=
  ⟨rfl, ⟨rfl, rfl, rfl⟩, rfl⟩

/-- Claim C9 (code bug, evaluation at the failing input): reordering the
three columns of `boardABC` (positions 0, 1, 2) with `new_order =
[0, 0, 2]` — the repository's own `verify_reorder.py` TEST 2, which
expects an error — succeeds: the duplicate entries alias column A, whose
last position write wins, column B is dropped, and the board is saved
with A duplicated. -/
theorem reorder_accepts_duplicate_positions :
    reorderColumns boardABC [0, 0, 2] =
      Except.ok { name := "Reorder Test", projectId := 1, columns :=
        [{ name := "A", status := "a", position := 1, color := none },
         { name := "A", status := "a", position := 1, color := none },
         { name := "C", status := "c", position := 2, color := none }] } :=
  rfl

/-- Claim C4 counterexample: sprint 10 of `stPend` is completed with
target `"backlog"` (snapshot `[1, 2]`; the pending issue 2 is detached
from `issue_ids`).  The sprint is then in the completed state, yet
re-invoking complete with the same target re-collects the now-smaller
issue set and overwrites `completed_issue_ids` with `[1]` — the claim
says re-invocation never changes it. -/
theorem complete_reinvocation_changes_snapshot :
    (((findSprint (completeSprint stPend 10 (some AutoMoveTarget.backlog) 50).fst
        10).map (fun sp => sp.status)) = some ("completed")) ∧
    (((findSprint (completeSprint stPend 10 (some AutoMoveTarget.backlog) 50).fst
        10).map (fun sp => sp.completedIssueIds)) = some [1, 2]) ∧
    (((findSprint (completeSprint
        (completeSprint stPend 10 (some AutoMoveTarget.backlog) 50).fst
        10 (some AutoMoveTarget.backlog) 60).fst 10).map
      (fun sp => sp.completedIssueIds)) = some [1]) :=
  ⟨rfl, rfl, rfl⟩

/-- Claim C6 counterexample: user 100 of `stNoPerm` (role `"user"`, not
a member of project 1, neither creator nor assignee of issue 5) fails
`can_edit_workitem`, yet `update_issue` succeeds and changes the issue's
status, `delete_issue` succeeds and soft-deletes it, and `move_issue`
succeeds — none of the three returns a permission error. -/
theorem issue_mutations_succeed_without_capability :
    (canEditWorkitem stNoPerm 5 100 = false) ∧
    ((updateIssue stNoPerm 100 5 { status := some ("done") }).map
      (fun st => (findIssue st 5).map (fun i => i.status)) =
        Except.ok (some ("done"))) ∧
    ((deleteIssue stNoPerm 100 5 77).map
      (fun st => (findIssue st 5).map (fun i => i.isDeleted)) =
        Except.ok (some true)) ∧
    ((moveIssue stNoPerm 100 5 MoveTo.backlog none).snd = none) :=
  ⟨rfl, rfl, rfl, rfl⟩

/-- Claim C7 counterexample: sprint 1 of `stListings` is soft-deleted
(`is_deleted = true`) and completed, and still appears in the
list-completed result; sprint 2 is soft-deleted and active, and still
appears in the list-running result. -/
theorem soft_deleted_sprints_appear_in_listings :
    ((findSprint stListings 1).map (fun s => s.isDeleted) = some true) ∧
    ((listCompletedSprints stListings none).map (fun s => s.id) = [1]) ∧
    ((findSprint stListings 2).map (fun s => s.isDeleted) = some true) ∧
    ((listRunningSprints stListings none).map (fun s => s.id) = [2]) :=
  ⟨rfl, rfl, rfl, rfl⟩

/-- Claim C8 counterexample: soft-deleting issue 1 of `stIssueTree`
flags the issue and its subtask 2 and leaves sibling 3 untouched, but
the comment attached to the issue is NOT soft-deleted — the comments
collection is not touched at all (and the `Comment` model has no
soft-delete field to set), contradicting the claim's comment conjunct. -/
theorem delete_issue_does_not_touch_comment :
    ((deleteIssue stIssueTree 9 1 77).map (fun st => st.comments) =
      Except.ok stIssueTree.comments) ∧
    ((deleteIssue stIssueTree 9 1 77).map
      (fun st => (findIssue st 1).map (fun i => i.isDeleted)) =
        Except.ok (some true)) ∧
    ((deleteIssue stIssueTree 9 1 77).map
      (fun st => (findIssue st 2).map (fun i => i.isDeleted)) =
        Except.ok (some true)) ∧
    ((deleteIssue stIssueTree 9 1 77).map (fun st => findIssue st 3) =
      Except.ok (findIssue stIssueTree 3)) :=
  ⟨rfl, rfl, rfl, rfl⟩

/-- Claim C4 (amended): invoking complete with an auto-move target —
including re-invoking it on an already-completed sprint — always
overwrites `completed_issue_ids` with the ids of the currently collected
issue set; there is no already-completed guard, so the stored snapshot
is preserved only when the collected set happens to be unchanged. -/
theorem complete_with_target_overwrites_snapshot
    (st : AppState) (sid : Oid) (t : AutoMoveTarget) (now : Nat) (s : SprintDoc)
    (hs : findSprint st sid = some s) :
    (findSprint (completeSprint st sid (some t) now).fst sid).map
        (fun sp => sp.completedIssueIds) =
      some ((collectSprintIssues st s).map (fun d => d.id)) := by
  unfold completeSprint
  simp only [hs]
  have hsome : (findSprint (((collectSprintIssues st s).filter
      (fun d => !(d.status == "done"))).foldl
        (moveIncompleteOne s.projectId sid t) st) sid).isSome = true := by
    rw [findSprint_isSome_moveFold, hs]
    rfl
  obtain ⟨sp1, hsp1⟩ := Option.isSome_iff_exists.mp hsome
  rw [findSprint_finalizeFold]
  unfold markSprintCompleted
  rw [findSprint_updateSprintDoc
      (((collectSprintIssues st s).filter (fun d => !(d.status == "done"))).foldl
        (moveIncompleteOne s.projectId sid t) st)
      sid sid
      (fun sp =>
        { sp with
          completedAt := some now, active := false,
          completedIssueIds := (collectSprintIssues st s).map (fun d => d.id),
          status := "completed" })
      (fun sp => rfl), hsp1]
  have hid : sp1.id = sid := by
    simpa using findSprint_id_eq _ sid sp1 hsp1
  simp [hid]

/-- Witness for C4 (amended): completing sprint 10 of `stAutoMove` with
target sprint 20 writes the collected ids `[1, 2]` into
`completed_issue_ids`. -/
theorem complete_with_target_overwrites_snapshot_witness :
    (findSprint (completeSprint stAutoMove 10
        (some (AutoMoveTarget.toSprint 20)) 50).fst 10).map
      (fun sp => sp.completedIssueIds) = some [1, 2] :=
  (complete_with_target_overwrites_snapshot stAutoMove 10
    (AutoMoveTarget.toSprint 20) 50 sprintPend (by rfl)).trans (by rfl)

/-- Claim C6 (amended): `update_issue`, `delete_issue` and `move_issue`
perform no capability check (the source marks the checks as removed):
whenever the issue exists, each operation succeeds and performs its
mutation even for a caller that fails `can_edit_workitem`; no
permission-denied error is possible on these routes. -/
theorem issue_ops_mutate_for_any_caller
    (st : AppState) (caller iid : Oid) (p : IssuePatch) (now : Nat) (i : IssueDoc)
    (h : findIssue st iid = some i)
    (hno : canEditWorkitem st iid caller = false) :
    updateIssue st caller iid p = Except.ok (updateIssueDoc st iid (applyPatch p)) ∧
    deleteIssue st caller iid now = Except.ok { st with issues := st.issues.map (fun j =>
      if j.id == iid || j.parent == some iid then
        { j with isDeleted := true, deletedAt := some now }
      else j) } ∧
    (moveIssue st caller iid MoveTo.backlog none).snd = none := by
  refine ⟨?_, ?_, ?_⟩
  · unfold updateIssue
    rw [h]
  · unfold deleteIssue
    rw [h]
  · unfold moveIssue
    rw [h]

/-- Witness for C6 (amended): caller 100 of `stNoPerm` fails
`can_edit_workitem` on issue 5, yet the rename patch is applied. -/
theorem issue_ops_mutate_for_any_caller_witness :
    canEditWorkitem stNoPerm 5 100 = false ∧
    updateIssue stNoPerm 100 5 { name := some ("X"), status := none } =
      Except.ok (updateIssueDoc stNoPerm 5
        (applyPatch { name := some ("X"), status := none })) :=
  ⟨by rfl,
    (issue_ops_mutate_for_any_caller stNoPerm 100 5
      { name := some ("X"), status := none } 77 _ (by rfl) (by rfl)).1⟩

/-- Claim C7 (amended): only listActive filters out soft-deleted
sprints; listCompleted contains every sprint whose `completed_at` is
set and listRunning contains every active sprint without `completed_at`,
in both cases regardless of `is_deleted`. -/
theorem sprint_listing_deletion_filters
    (st : AppState) (pid : Oid) (s : SprintDoc) :
    (s ∈ listActiveSprints st pid → s.isDeleted = false) ∧
    (s ∈ st.sprints → ¬(s.completedAt = none) → s ∈ listCompletedSprints st none) ∧
    (s ∈ st.sprints → s.active = true → s.completedAt = none →
      s ∈ listRunningSprints st none) := by
  refine ⟨?_, ?_, ?_⟩
  · intro hmem
    unfold listActiveSprints at hmem
    have h1 := (List.mem_filter.mp (List.mem_filter.mp hmem).1).2
    rcases Bool.and_eq_true_iff.mp h1 with ⟨_, h2⟩
    simpa using h2
  · intro hmem hc
    unfold listCompletedSprints
    refine List.mem_filter.mpr ⟨List.mem_filter.mpr ⟨hmem, ?_⟩, rfl⟩
    simp [hc]
  · intro hmem ha hc
    unfold listRunningSprints
    refine List.mem_filter.mpr ⟨List.mem_filter.mpr ⟨hmem, ?_⟩, rfl⟩
    simp [ha, hc]

/-- Witness for C7 (amended): in `stListings`, live sprint 3 from the
active listing is not deleted, while the two soft-deleted sprints are
members of the completed resp. running listings. -/
theorem sprint_listing_deletion_filters_witness :
    sprintLive.isDeleted = false ∧
    sprintDelCompleted ∈ listCompletedSprints stListings none ∧
    sprintDelActive ∈ listRunningSprints stListings none :=
  ⟨(sprint_listing_deletion_filters stListings 1 sprintLive).1 (by decide),
   (sprint_listing_deletion_filters stListings 1 sprintDelCompleted).2.1
     (by decide) (by decide),
   (sprint_listing_deletion_filters stListings 1 sprintDelActive).2.2
     (by decide) (by decide) (by decide)⟩

/-- Claim C8 (amended): soft-deleting an issue flags the issue and its
subtasks (children whose parent is the issue) and nothing else: the
comments collection is untouched (the route never queries comments and
the Comment model has no soft-delete flag), and every issue that is
neither the target nor one of its subtasks survives unchanged. -/
theorem delete_issue_cascade_scope
    (st : AppState) (caller iid : Oid) (now : Nat) (i : IssueDoc)
    (h : findIssue st iid = some i) :
    ∃ st', deleteIssue st caller iid now = Except.ok st' ∧
      st'.comments = st.comments ∧
      (∀ j, j ∈ st.issues → (j.id == iid) = false → (j.parent == some iid) = false →
        j ∈ st'.issues) ∧
      (∀ j, j ∈ st'.issues → ((j.id == iid) = true ∨ (j.parent == some iid) = true) →
        j.isDeleted = true) := by
  refine ⟨{ st with issues := st.issues.map (fun j =>
      if j.id == iid || j.parent == some iid then
        { j with isDeleted := true, deletedAt := some now }
      else j) }, ?_, rfl, ?_, ?_⟩
  · unfold deleteIssue
    rw [h]
  · intro j hj h1 h2
    have he : (if j.id == iid || j.parent == some iid then
        { j with isDeleted := true, deletedAt := some now } else j) = j := by
      simp [h1, h2]
    exact he ▸ List.mem_map_of_mem _ hj
  · intro j hj hcond
    rcases List.mem_map.mp hj with ⟨j0, hj0, hje⟩
    by_cases hc : (j0.id == iid || j0.parent == some iid) = true
    · rw [if_pos hc] at hje
      rw [← hje]
    · rw [if_neg hc] at hje
      subst hje
      exact absurd (by rcases hcond with h1 | h1 <;> simp [h1]) hc

/-- Witness for C8 (amended): deleting issue 1 of `stIssueTree`. -/
theorem delete_issue_cascade_scope_witness :
    ∃ st', deleteIssue stIssueTree 9 1 77 = Except.ok st' ∧
      st'.comments = stIssueTree.comments ∧
      (∀ j, j ∈ stIssueTree.issues → (j.id == 1) = false → (j.parent == some 1) = false →
        j ∈ st'.issues) ∧
      (∀ j, j ∈ st'.issues → ((j.id == 1) = true ∨ (j.parent == some 1) = true) →
        j.isDeleted = true) :=
  delete_issue_cascade_scope stIssueTree 9 1 77 _ (by rfl)
